import Mathlib

set_option maxRecDepth 4000

/-!
Shallow embedding of the AndroidManifest tree parser and security analyzer
of `src/app/api/android-re/manifest/route.ts`:

* `parseAaptXmlTree` — the depth-tracked state machine over the lines of the
  aapt xmltree dump (with `saveComponent`, `parseBadgingOutput`,
  `inferExportedStatus`, `getPermissionProtectionLevel`);
* `analyzeSecurityIssues` — the rule-based security analyzer.

JavaScript strings are modelled as Lean `String` / `List Char`; the two
line regexes and the three badging regexes are modelled by deterministic
recursive-descent matchers that reproduce the (backtracking-free, as argued
inline) behaviour of the source patterns.  JS numbers arising from
`parseInt` are modelled as exact `Int` (the values relevant here are far
below 2^53, where JS numbers are exact integers).  `undefined`-able string
fields are modelled as `Option String`, with JS truthiness made explicit.
-/

namespace AaptManifest

/-- JS whitespace class `\s` (also the whitespace skipped by `parseInt`):
ASCII whitespace, NBSP, and the Unicode space separators. -/
def isJsSpace (c : Char) : Bool :=
  c = ' ' || c = Char.ofNat 9 || c = Char.ofNat 10 || c = Char.ofNat 11 ||
  c = Char.ofNat 12 || c = Char.ofNat 13 || c = Char.ofNat 0xa0 ||
  c = Char.ofNat 0x1680 || (0x2000 ≤ c.toNat && c.toNat ≤ 0x200a) ||
  c = Char.ofNat 0x2028 || c = Char.ofNat 0x2029 || c = Char.ofNat 0x202f ||
  c = Char.ofNat 0x205f || c = Char.ofNat 0x3000 || c = Char.ofNat 0xfeff

/-- JS word-character class `\w` = `[A-Za-z0-9_]`. -/
def isWordChar (c : Char) : Bool := c.isAlpha || c.isDigit || c = '_'

/-- Hex digit class `[0-9a-fA-F]`. -/
def isHexChar (c : Char) : Bool :=
  c.isDigit || ('a' ≤ c && c ≤ 'f') || ('A' ≤ c && c ≤ 'F')

/-- Numeric value of a hex digit. -/
def hexDigitVal (c : Char) : Nat :=
  if c.isDigit then c.toNat - 48
  else if 'a' ≤ c && c ≤ 'f' then c.toNat - 87
  else if 'A' ≤ c && c ≤ 'F' then c.toNat - 55
  else 0

/-- Match a literal character sequence at the head of the input, returning
the remainder on success. -/
def expectLit : List Char → List Char → Option (List Char)
  | [], cs => some cs
  | _ :: _, [] => none
  | l :: ls, c :: cs => if c = l then expectLit ls cs else none

/-- `\s+` — at least one JS whitespace character, maximal munch (the
following literals in the source patterns never start with whitespace, so
the greedy match never backtracks). -/
def ws1 : List Char → Option (List Char)
  | [] => none
  | c :: cs => if isJsSpace c then some (cs.dropWhile isJsSpace) else none

/-- Substring containment, modelling JS `String.prototype.includes`. -/
def hasSub (pat : List Char) : List Char → Bool
  | [] => pat.isEmpty
  | c :: rest => (expectLit pat (c :: rest)).isSome || hasSub pat rest

/-- The element-line regex `^\s*E:\s+(\S+)` of `parseAaptXmlTree`,
returning the captured element name. -/
def elementMatch (line : List Char) : Option String :=
  let cs := line.dropWhile isJsSpace
  match expectLit ['E', ':'] cs with
  | none => none
  | some cs2 =>
    match ws1 cs2 with
    | none => none
    | some cs3 =>
      let name := cs3.takeWhile (fun c => !(isJsSpace c))
      if name = [] then none else some (String.mk name)

/-- The decoded value of an attribute line: capture group 2 (a quoted
string) or capture group 3 (a hex/int literal) of the attribute regex. -/
inductive AttrVal where
  | str (s : String)
  | num (raw : String)
deriving Repr, DecidableEq

/-- The numeric alternative `(0x[0-9a-fA-F]+|-?\d+)` of the attribute
regex (first alternative tried first, as the regex engine does). -/
def matchNum (cs : List Char) : Option String :=
  let hexCase : Option String :=
    match expectLit ['0', 'x'] cs with
    | some hs =>
      let ds := hs.takeWhile isHexChar
      if ds = [] then none else some (String.mk ('0' :: 'x' :: ds))
    | none => none
  match hexCase with
  | some r => some r
  | none =>
    match cs with
    | '-' :: rest =>
      let ds := rest.takeWhile Char.isDigit
      if ds = [] then none else some (String.mk ('-' :: ds))
    | _ =>
      let ds := cs.takeWhile Char.isDigit
      if ds = [] then none else some (String.mk ds)

/-- The value part after `=` in the attribute regex:
`(?:"([^"]*)"|(?:\(type [^)]+\))?(0x[0-9a-fA-F]+|-?\d+))`. -/
def matchAttrValue (cs : List Char) : Option AttrVal :=
  match cs with
  | '"' :: rest =>
    let content := rest.takeWhile (fun c => c != '"')
    match rest.dropWhile (fun c => c != '"') with
    | _ :: _ => some (.str (String.mk content))
    | [] => none
  | _ =>
    let afterType : Option (List Char) :=
      match expectLit ['(', 't', 'y', 'p', 'e', ' '] cs with
      | some rest =>
        let inner := rest.takeWhile (fun c => c != ')')
        if inner = [] then none
        else
          match rest.dropWhile (fun c => c != ')') with
          | _ :: r2 => some r2
          | [] => none
      | none => none
    match afterType with
    | some rest2 =>
      match matchNum rest2 with
      | some r => some (.num r)
      | none => (matchNum cs).map .num
    | none => (matchNum cs).map .num

/-- Tail of the attribute regex after the optional `android:` prefix:
`(\w+)(?:\([^)]*\))?=` followed by the value part. -/
def attrTail (cs : List Char) : Option (String × AttrVal) :=
  let nameChars := cs.takeWhile isWordChar
  if nameChars = [] then none
  else
    let rest := cs.dropWhile isWordChar
    let rest2 : List Char :=
      match rest with
      | '(' :: inner =>
        match inner.dropWhile (fun c => c != ')') with
        | _ :: r2 => r2
        | [] => rest
      | _ => rest
    match rest2 with
    | '=' :: vs =>
      match matchAttrValue vs with
      | some v => some (String.mk nameChars, v)
      | none => none
    | _ => none

/-- The attribute-line regex of `parseAaptXmlTree`:
`^\s*A:\s+(?:android:)?(\w+)(?:\([^)]*\))?=(?:"([^"]*)"|(?:\(type [^)]+\))?(0x[0-9a-fA-F]+|-?\d+))`.
The optional `android:` prefix is tried consumed first; on failure of the
rest of the pattern the engine retries without it, which is reproduced
here. -/
def attrMatch (line : List Char) : Option (String × AttrVal) :=
  let cs := line.dropWhile isJsSpace
  match expectLit ['A', ':'] cs with
  | none => none
  | some cs2 =>
    match ws1 cs2 with
    | none => none
    | some cs3 =>
      match expectLit ['a', 'n', 'd', 'r', 'o', 'i', 'd', ':'] cs3 with
      | some cs4 =>
        match attrTail cs4 with
        | some r => some r
        | none => attrTail cs3
      | none => attrTail cs3

/-- JS truthiness of a `string | undefined` value: `undefined` and the
empty string are falsy. -/
def jsTruthyStr : Option String → Bool
  | none => false
  | some s => s != ""

/-- `parseInt(s, 16)`: skip whitespace, optional sign, optional `0x`/`0X`
prefix, then the maximal run of hex digits; `none` models `NaN`. -/
def parseIntRadix16 (s : String) : Option Int :=
  let cs := s.toList.dropWhile isJsSpace
  let signPair : Int × List Char :=
    match cs with
    | '-' :: rest => (-1, rest)
    | '+' :: rest => (1, rest)
    | _ => (1, cs)
  let body : List Char :=
    match signPair.2 with
    | '0' :: 'x' :: rest => rest
    | '0' :: 'X' :: rest => rest
    | _ => signPair.2
  let ds := body.takeWhile isHexChar
  if ds = [] then none
  else some (signPair.1 * (ds.foldl (fun acc c => acc * 16 + hexDigitVal c) 0 : Nat))

/-- `parseInt(s)` with no radix argument: skip whitespace, optional sign,
then hex if the body starts `0x`/`0X`, else decimal; `none` models `NaN`. -/
def jsParseInt (s : String) : Option Int :=
  let cs := s.toList.dropWhile isJsSpace
  let signPair : Int × List Char :=
    match cs with
    | '-' :: rest => (-1, rest)
    | '+' :: rest => (1, rest)
    | _ => (1, cs)
  let hexPair : Bool × List Char :=
    match signPair.2 with
    | '0' :: 'x' :: rest => (true, rest)
    | '0' :: 'X' :: rest => (true, rest)
    | _ => (false, signPair.2)
  let ds := hexPair.2.takeWhile (fun c => if hexPair.1 then isHexChar c else c.isDigit)
  if ds = [] then none
  else some (signPair.1 *
    (ds.foldl (fun acc c => acc * (if hexPair.1 then 16 else 10) + hexDigitVal c) 0 : Nat))

/-- `parseInt(s) || 0` — the source's NaN-defaulting idiom (`parseInt`
returning `0` itself is falsy but `|| 0` then yields the same `0`). -/
def jsParseIntOr0 (s : String) : Int := (jsParseInt s).getD 0

/-- `String(parseInt(h, 16))` as used for versionCode / SDK fields. -/
def hexIntStr (h : String) : String :=
  match parseIntRadix16 h with
  | some n => toString n
  | none => "NaN"

/-! ## Data model -/

structure IntentFilter where
  action : Option String := none
  category : Option String := none
  data : Option String := none
deriving Repr, DecidableEq

inductive CompType where
  | activity
  | service
  | receiver
  | provider
deriving Repr, DecidableEq

/-- The loosely-typed component object the parser builds:
`intentFilters = none` models a JS object created without the
`intentFilters` key (service, provider), `some _` an object carrying the
key (activity, receiver) — the source tests key presence with
`"intentFilters" in currentComponent`. -/
structure Component where
  name : String := ""
  exported : Bool := false
  intentFilters : Option (List IntentFilter) := none
  permission : Option String := none
  authorities : Option String := none
  readPermission : Option String := none
  writePermission : Option String := none
deriving Repr, DecidableEq

structure PermissionInfo where
  name : String
  protectionLevel : String
deriving Repr, DecidableEq

structure SecurityIssue where
  severity : String
  issue : String
  component : Option String := none
deriving Repr, DecidableEq

/-- `ManifestResult` with the initial values of `parseAaptXmlTree`
(`allowBackup` defaults to true, as in the source). -/
structure ManifestResult where
  package : String := ""
  versionCode : String := ""
  versionName : String := ""
  minSdk : String := ""
  targetSdk : String := ""
  permissions : List PermissionInfo := []
  activities : List Component := []
  services : List Component := []
  receivers : List Component := []
  providers : List Component := []
  securityIssues : List SecurityIssue := []
  debuggable : Bool := false
  allowBackup : Bool := true
deriving Repr, DecidableEq

/-! ## Permission knowledge base -/

def DANGEROUS_PERMISSIONS : List String := [
  "android.permission.READ_CALENDAR",
  "android.permission.WRITE_CALENDAR",
  "android.permission.CAMERA",
  "android.permission.READ_CONTACTS",
  "android.permission.WRITE_CONTACTS",
  "android.permission.GET_ACCOUNTS",
  "android.permission.ACCESS_FINE_LOCATION",
  "android.permission.ACCESS_COARSE_LOCATION",
  "android.permission.ACCESS_BACKGROUND_LOCATION",
  "android.permission.RECORD_AUDIO",
  "android.permission.READ_PHONE_STATE",
  "android.permission.READ_PHONE_NUMBERS",
  "android.permission.CALL_PHONE",
  "android.permission.ANSWER_PHONE_CALLS",
  "android.permission.READ_CALL_LOG",
  "android.permission.WRITE_CALL_LOG",
  "android.permission.ADD_VOICEMAIL",
  "android.permission.USE_SIP",
  "android.permission.PROCESS_OUTGOING_CALLS",
  "android.permission.BODY_SENSORS",
  "android.permission.ACTIVITY_RECOGNITION",
  "android.permission.SEND_SMS",
  "android.permission.RECEIVE_SMS",
  "android.permission.READ_SMS",
  "android.permission.RECEIVE_WAP_PUSH",
  "android.permission.RECEIVE_MMS",
  "android.permission.READ_EXTERNAL_STORAGE",
  "android.permission.WRITE_EXTERNAL_STORAGE",
  "android.permission.READ_MEDIA_IMAGES",
  "android.permission.READ_MEDIA_VIDEO",
  "android.permission.READ_MEDIA_AUDIO",
  "android.permission.POST_NOTIFICATIONS",
  "android.permission.NEARBY_WIFI_DEVICES",
  "android.permission.BLUETOOTH_SCAN",
  "android.permission.BLUETOOTH_ADVERTISE",
  "android.permission.BLUETOOTH_CONNECT"]

def SIGNATURE_PERMISSIONS : List String := [
  "android.permission.BIND_ACCESSIBILITY_SERVICE",
  "android.permission.BIND_AUTOFILL_SERVICE",
  "android.permission.BIND_CARRIER_SERVICES",
  "android.permission.BIND_CHOOSER_TARGET_SERVICE",
  "android.permission.BIND_CONDITION_PROVIDER_SERVICE",
  "android.permission.BIND_DEVICE_ADMIN",
  "android.permission.BIND_DREAM_SERVICE",
  "android.permission.BIND_INPUT_METHOD",
  "android.permission.BIND_MIDI_DEVICE_SERVICE",
  "android.permission.BIND_NFC_SERVICE",
  "android.permission.BIND_NOTIFICATION_LISTENER_SERVICE",
  "android.permission.BIND_PRINT_SERVICE",
  "android.permission.BIND_QUICK_ACCESS_WALLET_SERVICE",
  "android.permission.BIND_QUICK_SETTINGS_TILE",
  "android.permission.BIND_REMOTEVIEWS",
  "android.permission.BIND_SCREENING_SERVICE",
  "android.permission.BIND_TELECOM_CONNECTION_SERVICE",
  "android.permission.BIND_TEXT_SERVICE",
  "android.permission.BIND_TV_INPUT",
  "android.permission.BIND_VISUAL_VOICEMAIL_SERVICE",
  "android.permission.BIND_VOICE_INTERACTION",
  "android.permission.BIND_VPN_SERVICE",
  "android.permission.BIND_VR_LISTENER_SERVICE",
  "android.permission.BIND_WALLPAPER",
  "android.permission.CLEAR_APP_CACHE",
  "android.permission.MANAGE_DOCUMENTS",
  "android.permission.READ_VOICEMAIL",
  "android.permission.REQUEST_COMPANION_RUN_IN_BACKGROUND",
  "android.permission.REQUEST_COMPANION_USE_DATA_IN_BACKGROUND",
  "android.permission.REQUEST_DELETE_PACKAGES",
  "android.permission.REQUEST_INSTALL_PACKAGES",
  "android.permission.SYSTEM_ALERT_WINDOW",
  "android.permission.WRITE_SETTINGS",
  "android.permission.WRITE_VOICEMAIL"]

/-- `getPermissionProtectionLevel`: fixed dangerous set, then fixed
signature set, then the `includes("BIND_")` heuristic, else normal. -/
def getPermissionProtectionLevel (permissionName : String) : String :=
  if DANGEROUS_PERMISSIONS.contains permissionName then "dangerous"
  else if SIGNATURE_PERMISSIONS.contains permissionName then "signature"
  else if hasSub "BIND_".toList permissionName.toList then "signature"
  else "normal"

/-! ## The TreeParser state machine -/

/-- The mutable parse state threaded through the line loop of
`parseAaptXmlTree`. -/
structure ParseState where
  result : ManifestResult := {}
  currentElement : Option String := none
  currentComponent : Option Component := none
  componentType : Option CompType := none
  inIntentFilter : Bool := false
  currentIntentFilter : IntentFilter := {}
  componentDepth : Nat := 0
  intentFilterDepth : Nat := 0
deriving Repr, DecidableEq

/-- `saveComponent`: a component is appended to the list of its type
only when a type is set and its name is non-empty (`!component.name`
rejects the empty string). -/
def saveComponent (result : ManifestResult) (component : Component) :
    Option CompType → ManifestResult
  | none => result
  | some t =>
    if component.name = "" then result
    else
      match t with
      | .activity => { result with activities := result.activities ++ [component] }
      | .service => { result with services := result.services ++ [component] }
      | .receiver => { result with receivers := result.receivers ++ [component] }
      | .provider => { result with providers := result.providers ++ [component] }

/-- First closure check on an element line: end the current component if
the new element is at the component's depth or shallower. -/
def closeComponent (st : ParseState) (currentDepth : Nat) : ParseState :=
  match st.currentComponent with
  | some comp =>
    if st.componentDepth ≥ currentDepth then
      { st with result := saveComponent st.result comp st.componentType,
                currentComponent := none, componentType := none }
    else st
  | none => st

/-- Second closure check on an element line: end the current intent
filter if the new element is at the filter's depth or shallower, pushing
it onto the (still-open) component when that component carries the
`intentFilters` key. -/
def closeIntentFilter (st : ParseState) (currentDepth : Nat) : ParseState :=
  if st.inIntentFilter ∧ st.intentFilterDepth ≥ currentDepth then
    let st2 :=
      match st.currentComponent with
      | some comp =>
        match comp.intentFilters with
        | some fs =>
          let comp2 : Component :=
            { comp with intentFilters := some (fs ++ [st.currentIntentFilter]) }
          { st with currentComponent := some comp2 }
        | none => st
      | none => st
    { st2 with inIntentFilter := false, currentIntentFilter := {} }
  else st

/-- The `switch (elementName)` of the element branch, after
`currentElement` is updated. -/
def openElement (st : ParseState) (elementName : String) (currentDepth : Nat) : ParseState :=
  let st1 := { st with currentElement := some elementName }
  if elementName = "activity" || elementName = "activity-alias" then
    { st1 with
      currentComponent := some { name := "", exported := false, intentFilters := some [] },
      componentType := some .activity, componentDepth := currentDepth }
  else if elementName = "service" then
    { st1 with currentComponent := some { name := "", exported := false },
               componentType := some .service, componentDepth := currentDepth }
  else if elementName = "receiver" then
    { st1 with
      currentComponent := some { name := "", exported := false, intentFilters := some [] },
      componentType := some .receiver, componentDepth := currentDepth }
  else if elementName = "provider" then
    { st1 with currentComponent := some { name := "", exported := false },
               componentType := some .provider, componentDepth := currentDepth }
  else if elementName = "intent-filter" then
    { st1 with inIntentFilter := true, intentFilterDepth := currentDepth,
               currentIntentFilter := {} }
  else st1

/-- Full handling of an element line: component closure first, then
intent-filter closure, then the element switch (source order). -/
def stepElement (st : ParseState) (elementName : String) (currentDepth : Nat) : ParseState :=
  openElement (closeIntentFilter (closeComponent st currentDepth) currentDepth)
    elementName currentDepth

/-- Manifest-level attribute block (`currentElement === "manifest"`). -/
def applyManifestAttr (st : ParseState) (attrName : String)
    (stringValue hexValue : Option String) : ParseState :=
  if st.currentElement = some "manifest" then
    if attrName = "package" then
      { st with result := { st.result with package := stringValue.getD "" } }
    else if attrName = "versionCode" then
      let v := if jsTruthyStr hexValue then hexIntStr (hexValue.getD "") else stringValue.getD ""
      { st with result := { st.result with versionCode := v } }
    else if attrName = "versionName" then
      { st with result := { st.result with versionName := stringValue.getD "" } }
    else st
  else st

/-- `uses-sdk` attribute block. -/
def applyUsesSdkAttr (st : ParseState) (attrName : String)
    (stringValue hexValue : Option String) : ParseState :=
  if st.currentElement = some "uses-sdk" then
    if attrName = "minSdkVersion" then
      let v := if jsTruthyStr hexValue then hexIntStr (hexValue.getD "") else stringValue.getD ""
      { st with result := { st.result with minSdk := v } }
    else if attrName = "targetSdkVersion" then
      let v := if jsTruthyStr hexValue then hexIntStr (hexValue.getD "") else stringValue.getD ""
      { st with result := { st.result with targetSdk := v } }
    else st
  else st

/-- `uses-permission` attribute block: pushes a permission with its
derived protection level when the name is non-empty. -/
def applyUsesPermissionAttr (st : ParseState) (attrName : String)
    (stringValue _hexValue : Option String) : ParseState :=
  if st.currentElement = some "uses-permission" ∧ attrName = "name" then
    let permName := stringValue.getD ""
    if permName ≠ "" then
      { st with result := { st.result with permissions :=
          st.result.permissions ++
            [{ name := permName,
               protectionLevel := getPermissionProtectionLevel permName }] } }
    else st
  else st

/-- `application` attribute block.  Note the asymmetry in the source:
`debuggable` is true iff the value is `0xffffffff` or `-1`, while
`allowBackup` is false iff the value is `0x0` or `0`. -/
def applyApplicationAttr (st : ParseState) (attrName : String)
    (_stringValue hexValue : Option String) : ParseState :=
  if st.currentElement = some "application" then
    if attrName = "debuggable" then
      { st with result := { st.result with
          debuggable := hexValue == some "0xffffffff" || hexValue == some "-1" } }
    else if attrName = "allowBackup" then
      { st with result := { st.result with
          allowBackup := !(hexValue == some "0x0" || hexValue == some "0") } }
    else st
  else st

/-- Component attribute block (runs whenever a component is open,
whatever `currentElement` is). -/
def applyComponentAttr (st : ParseState) (attrName : String)
    (stringValue hexValue : Option String) : ParseState :=
  match st.currentComponent with
  | none => st
  | some comp =>
    if attrName = "name" then
      { st with currentComponent := some { comp with name := stringValue.getD "" } }
    else if attrName = "exported" then
      { st with currentComponent := some { comp with
          exported := hexValue == some "0xffffffff" || hexValue == some "-1" } }
    else if attrName = "permission" then
      { st with currentComponent := some { comp with permission := stringValue } }
    else if attrName = "authorities" ∧ st.componentType = some .provider then
      { st with currentComponent := some { comp with authorities := stringValue } }
    else if attrName = "readPermission" ∧ st.componentType = some .provider then
      { st with currentComponent := some { comp with readPermission := stringValue } }
    else if attrName = "writePermission" ∧ st.componentType = some .provider then
      { st with currentComponent := some { comp with writePermission := stringValue } }
    else st

/-- Intent-filter children attribute block (runs whenever an intent
filter is open; a missing string value renders as "undefined" in the
data composite, as the JS template literal does). -/
def applyIntentFilterAttr (st : ParseState) (attrName : String)
    (stringValue _hexValue : Option String) : ParseState :=
  if st.inIntentFilter then
    if st.currentElement = some "action" ∧ attrName = "name" then
      { st with currentIntentFilter := { st.currentIntentFilter with action := stringValue } }
    else if st.currentElement = some "category" ∧ attrName = "name" then
      { st with currentIntentFilter := { st.currentIntentFilter with category := stringValue } }
    else if st.currentElement = some "data" then
      if attrName = "scheme" ∨ attrName = "host" ∨ attrName = "path" then
        let dataStr := st.currentIntentFilter.data.getD ""
        let sv := match stringValue with | some s => s | none => "undefined"
        let newData := dataStr ++ (if dataStr ≠ "" then ", " else "") ++ attrName ++ "=" ++ sv
        { st with currentIntentFilter := { st.currentIntentFilter with data := some newData } }
      else st
    else st
  else st

/-- Full handling of an attribute line: the six independent `if` blocks
of the source, in order. -/
def stepAttr (st : ParseState) (attrName : String) (val : AttrVal) : ParseState :=
  let stringValue : Option String := match val with | .str s => some s | .num _ => none
  let hexValue : Option String := match val with | .num r => some r | .str _ => none
  let st1 := applyManifestAttr st attrName stringValue hexValue
  let st2 := applyUsesSdkAttr st1 attrName stringValue hexValue
  let st3 := applyUsesPermissionAttr st2 attrName stringValue hexValue
  let st4 := applyApplicationAttr st3 attrName stringValue hexValue
  let st5 := applyComponentAttr st4 attrName stringValue hexValue
  applyIntentFilterAttr st5 attrName stringValue hexValue

/-- One iteration of the line loop: depth from leading whitespace
(`floor(len/2)`), element lines first (with `continue`), then attribute
lines, else no effect. -/
def stepLine (st : ParseState) (line : List Char) : ParseState :=
  let currentDepth := (line.takeWhile isJsSpace).length / 2
  match elementMatch line with
  | some elementName => stepElement st elementName currentDepth
  | none =>
    match attrMatch line with
    | some p => stepAttr st p.1 p.2
    | none => st

/-- `split("\n")` on the character list of the input. -/
def splitOnNl : List Char → List (List Char)
  | [] => [[]]
  | c :: rest =>
    if c = '\n' then [] :: splitOnNl rest
    else
      match splitOnNl rest with
      | l :: ls => (c :: l) :: ls
      | [] => [[c]]

def parseLinesFrom (st : ParseState) (lines : List (List Char)) : ParseState :=
  lines.foldl stepLine st

/-- End-of-input flush: a still-open intent filter is pushed first, then
the still-open component is saved (note the order differs from the
element-line closure, which saves the component first). -/
def finishParse (st : ParseState) : ManifestResult :=
  match st.currentComponent with
  | some comp =>
    let comp2 :=
      if st.inIntentFilter then
        match comp.intentFilters with
        | some fs => { comp with intentFilters := some (fs ++ [st.currentIntentFilter]) }
        | none => comp
      else comp
    saveComponent st.result comp2 st.componentType
  | none => st.result

/-! ## BadgingMerger -/

/-- Capture `'([^']+)'` — at least one non-quote character, then the
closing quote; returns the capture and the rest after the quote. -/
def matchQuotedCap (cs : List Char) : Option (String × List Char) :=
  let q := Char.ofNat 39
  let content := cs.takeWhile (fun c => c != q)
  if content = [] then none
  else
    match cs.dropWhile (fun c => c != q) with
    | _ :: rest => some (String.mk content, rest)
    | [] => none

/-- The badging package pattern
`package:\s+name='([^']+)'\s+versionCode='([^']+)'\s+versionName='([^']+)'`
tried at the current position. -/
def matchPackageAt (cs : List Char) : Option (String × String × String) := do
  let cs1 ← expectLit "package:".toList cs
  let cs2 ← ws1 cs1
  let cs3 ← expectLit "name=\x27".toList cs2
  let (p, cs4) ← matchQuotedCap cs3
  let cs5 ← ws1 cs4
  let cs6 ← expectLit "versionCode=\x27".toList cs5
  let (vc, cs7) ← matchQuotedCap cs6
  let cs8 ← ws1 cs7
  let cs9 ← expectLit "versionName=\x27".toList cs8
  let (vn, _) ← matchQuotedCap cs9
  pure (p, vc, vn)

/-- Leftmost match of the badging package pattern (JS `String.match`
without the global flag). -/
def findPackageTriple : List Char → Option (String × String × String)
  | [] => none
  | c :: rest =>
    match matchPackageAt (c :: rest) with
    | some r => some r
    | none => findPackageTriple rest

/-- Pattern `key(\d+)'` tried at the current position (the key already
carries the opening quote). -/
def matchKeyNumAt (key : List Char) (cs : List Char) : Option String := do
  let cs1 ← expectLit key cs
  let ds := cs1.takeWhile Char.isDigit
  if ds = [] then none
  else
    match cs1.dropWhile Char.isDigit with
    | c :: _ => if c = Char.ofNat 39 then some (String.mk ds) else none
    | [] => none

/-- Leftmost match of `key(\d+)'` anywhere in the text. -/
def findKeyNum (key : List Char) : List Char → Option String
  | [] => none
  | c :: rest =>
    match matchKeyNumAt key (c :: rest) with
    | some r => some r
    | none => findKeyNum key rest

/-- `sdkVersion:'(\d+)'`. -/
def findSdkVersion (cs : List Char) : Option String :=
  findKeyNum "sdkVersion:\x27".toList cs

/-- `targetSdkVersion:'(\d+)'`. -/
def findTargetSdkVersion (cs : List Char) : Option String :=
  findKeyNum "targetSdkVersion:\x27".toList cs

/-- First block of `parseBadgingOutput`: the package/versionCode/
versionName triple, each field assigned only when currently empty. -/
def badgeTriple (result : ManifestResult) (bs : List Char) : ManifestResult :=
  match findPackageTriple bs with
  | some (p, vc, vn) =>
    let a := if result.package = "" then { result with package := p } else result
    let b2 := if a.versionCode = "" then { a with versionCode := vc } else a
    if b2.versionName = "" then { b2 with versionName := vn } else b2
  | none => result

/-- Second block of `parseBadgingOutput`: `sdkVersion:'N'`. -/
def badgeMinSdk (result : ManifestResult) (bs : List Char) : ManifestResult :=
  match findSdkVersion bs with
  | some v => if result.minSdk = "" then { result with minSdk := v } else result
  | none => result

/-- Third block of `parseBadgingOutput`: `targetSdkVersion:'N'`. -/
def badgeTargetSdk (result : ManifestResult) (bs : List Char) : ManifestResult :=
  match findTargetSdkVersion bs with
  | some v => if result.targetSdk = "" then { result with targetSdk := v } else result
  | none => result

/-- `parseBadgingOutput`: back-fill package / versionCode / versionName /
minSdk / targetSdk, each only when currently empty (the source's three
sequential regex blocks). -/
def parseBadgingOutput (result : ManifestResult) (badging : String) : ManifestResult :=
  badgeTargetSdk (badgeMinSdk (badgeTriple result badging.toList) badging.toList) badging.toList

/-! ## Export inference -/

/-- The per-component mutation of `inferExportedStatus`: force
`exported` when the component has at least one intent filter and is not
already exported. -/
def forceExported (c : Component) : Component :=
  if (c.intentFilters.getD []).length > 0 ∧ c.exported = false then
    { c with exported := true }
  else c

/-- `inferExportedStatus`: when `parseInt(targetSdk) || 0 < 31`, force
`exported` on activities and receivers with intent filters; services and
providers are never visited. -/
def inferExportedStatus (result : ManifestResult) : ManifestResult :=
  let targetSdk := jsParseIntOr0 result.targetSdk
  if targetSdk < 31 then
    { result with activities := result.activities.map forceExported,
                  receivers := result.receivers.map forceExported }
  else result

/-! ## Pipeline -/

/-- The `if (badging)` guard around `parseBadgingOutput` (empty string is
falsy). -/
def mergeIfNonempty (result : ManifestResult) (badging : String) : ManifestResult :=
  if badging ≠ "" then parseBadgingOutput result badging else result

/-- `parseAaptXmlTree(xmlTree, badging)`: single forward line pass,
end-of-input flush, optional badging back-fill, then export inference. -/
def parseAaptXmlTree (xmlTree badging : String) : ManifestResult :=
  inferExportedStatus
    (mergeIfNonempty (finishParse (parseLinesFrom {} (splitOnNl xmlTree.toList))) badging)

/-! ## SecurityAnalyzer -/

/-- Launcher check: some intent filter with MAIN action and LAUNCHER
category. -/
def isLauncherActivity (a : Component) : Bool :=
  (a.intentFilters.getD []).any (fun f =>
    f.action == some "android.intent.action.MAIN" &&
    f.category == some "android.intent.category.LAUNCHER")

def activityIssueMsg : String :=
  "Exported activity without permission protection. Any app can start this activity."

def serviceIssueMsg : String :=
  "Exported service without permission protection. Any app can bind to or start this service."

def receiverIssueMsg : String :=
  "Exported broadcast receiver with custom intent-filter. Verify this is intentional."

def providerIssueMsg : String :=
  "Exported content provider without permission protection. Any app can read/write data."

def debuggableIssueMsg : String :=
  "Application is debuggable. This allows attackers to attach debuggers and inspect/modify app behavior at runtime."

def allowBackupIssueMsg : String :=
  "Application allows backup. User data can be extracted via adb backup. Consider setting android:allowBackup=\"false\" or implementing BackupAgent."

/-- Rule 3, per activity: exported and permission-less (JS-falsy) is
high severity, unless it is a launcher activity. -/
def activityIssue (a : Component) : Option SecurityIssue :=
  if a.exported && !(jsTruthyStr a.permission) then
    if isLauncherActivity a then none
    else some ⟨"high", activityIssueMsg, some a.name⟩
  else none

/-- Rule 4, per service. -/
def serviceIssue (s : Component) : Option SecurityIssue :=
  if s.exported && !(jsTruthyStr s.permission) then
    some ⟨"high", serviceIssueMsg, some s.name⟩
  else none

/-- System-broadcast check: some filter action starting with
`android.intent.` (optional chaining: a missing action is falsy). -/
def isSystemBroadcastReceiver (r : Component) : Bool :=
  (r.intentFilters.getD []).any (fun f =>
    match f.action with
    | some a => "android.intent.".isPrefixOf a
    | none => false)

/-- Rule 5, per receiver. -/
def receiverIssue (r : Component) : Option SecurityIssue :=
  if r.exported && (r.intentFilters.getD []).length > 0 then
    if isSystemBroadcastReceiver r then none
    else some ⟨"medium", receiverIssueMsg, some r.name⟩
  else none

/-- Rule 6, per provider. -/
def providerIssue (p : Component) : Option SecurityIssue :=
  if p.exported then
    if !(jsTruthyStr p.permission) && !(jsTruthyStr p.readPermission) &&
        !(jsTruthyStr p.writePermission) then
      some ⟨"high", providerIssueMsg, some p.name⟩
    else none
  else none

/-- Rules 1 and 2: the manifest-wide debuggable / allowBackup findings. -/
def manifestWideIssues (m : ManifestResult) : List SecurityIssue :=
  (if m.debuggable then [⟨"high", debuggableIssueMsg, none⟩] else [])
  ++ (if m.allowBackup then [⟨"medium", allowBackupIssueMsg, none⟩] else [])

/-- Rule 7: more than five dangerous permissions. -/
def dangerousCountIssues (m : ManifestResult) : List SecurityIssue :=
  let n := (m.permissions.filter (fun p => p.protectionLevel == "dangerous")).length
  if n > 5 then
    [⟨"medium", "Application requests " ++ toString n ++
      " dangerous permissions. Review if all are necessary.", none⟩]
  else []

/-- Rule 8: `parseInt(targetSdk) || 0` strictly between 0 and 28. -/
def targetSdkIssues (m : ManifestResult) : List SecurityIssue :=
  let targetSdk := jsParseIntOr0 m.targetSdk
  if targetSdk > 0 ∧ targetSdk < 28 then
    [⟨"low", "Target SDK (" ++ toString targetSdk ++
      ") is below 28. App may not enforce runtime permissions properly.", none⟩]
  else []

/-- Rule 9: `parseInt(minSdk) || 0` strictly between 0 and 21. -/
def minSdkIssues (m : ManifestResult) : List SecurityIssue :=
  let minSdk := jsParseIntOr0 m.minSdk
  if minSdk > 0 ∧ minSdk < 21 then
    [⟨"medium", "Minimum SDK (" ++ toString minSdk ++
      ") is below 21 (Lollipop). App may run on devices without full disk encryption and other security features.", none⟩]
  else []

/-- `analyzeSecurityIssues`: the fixed rule order of the source; each
component contributes at most one finding, in list order. -/
def analyzeSecurityIssues (manifest : ManifestResult) : List SecurityIssue :=
  manifestWideIssues manifest
  ++ manifest.activities.filterMap activityIssue
  ++ manifest.services.filterMap serviceIssue
  ++ manifest.receivers.filterMap receiverIssue
  ++ manifest.providers.filterMap providerIssue
  ++ dangerousCountIssues manifest
  ++ targetSdkIssues manifest
  ++ minSdkIssues manifest

/-- `parseAndroidManifest`'s final assembly: the parsed document with the
analyzer's findings attached. -/
def parseManifestResult (xmlTree badging : String) : ManifestResult :=
  let result := parseAaptXmlTree xmlTree badging
  { result with securityIssues := analyzeSecurityIssues result }

/-! ## Frame lemmas for the attribute blocks -/

theorem applyManifestAttr_frame (st : ParseState) (n : String) (sv hv : Option String) :
    (applyManifestAttr st n sv hv).result.permissions = st.result.permissions ∧
    (applyManifestAttr st n sv hv).result.activities = st.result.activities ∧
    (applyManifestAttr st n sv hv).result.services = st.result.services ∧
    (applyManifestAttr st n sv hv).result.receivers = st.result.receivers ∧
    (applyManifestAttr st n sv hv).result.providers = st.result.providers ∧
    (applyManifestAttr st n sv hv).currentElement = st.currentElement ∧
    (applyManifestAttr st n sv hv).currentComponent = st.currentComponent ∧
    (applyManifestAttr st n sv hv).componentType = st.componentType ∧
    (applyManifestAttr st n sv hv).inIntentFilter = st.inIntentFilter ∧
    (applyManifestAttr st n sv hv).currentIntentFilter = st.currentIntentFilter := by
  unfold applyManifestAttr
  repeat' split
  all_goals simp

theorem applyUsesSdkAttr_frame (st : ParseState) (n : String) (sv hv : Option String) :
    (applyUsesSdkAttr st n sv hv).result.permissions = st.result.permissions ∧
    (applyUsesSdkAttr st n sv hv).result.activities = st.result.activities ∧
    (applyUsesSdkAttr st n sv hv).result.services = st.result.services ∧
    (applyUsesSdkAttr st n sv hv).result.receivers = st.result.receivers ∧
    (applyUsesSdkAttr st n sv hv).result.providers = st.result.providers ∧
    (applyUsesSdkAttr st n sv hv).currentElement = st.currentElement ∧
    (applyUsesSdkAttr st n sv hv).currentComponent = st.currentComponent ∧
    (applyUsesSdkAttr st n sv hv).componentType = st.componentType ∧
    (applyUsesSdkAttr st n sv hv).inIntentFilter = st.inIntentFilter ∧
    (applyUsesSdkAttr st n sv hv).currentIntentFilter = st.currentIntentFilter := by
  unfold applyUsesSdkAttr
  repeat' split
  all_goals simp

theorem applyApplicationAttr_frame (st : ParseState) (n : String) (sv hv : Option String) :
    (applyApplicationAttr st n sv hv).result.permissions = st.result.permissions ∧
    (applyApplicationAttr st n sv hv).result.activities = st.result.activities ∧
    (applyApplicationAttr st n sv hv).result.services = st.result.services ∧
    (applyApplicationAttr st n sv hv).result.receivers = st.result.receivers ∧
    (applyApplicationAttr st n sv hv).result.providers = st.result.providers ∧
    (applyApplicationAttr st n sv hv).currentElement = st.currentElement ∧
    (applyApplicationAttr st n sv hv).currentComponent = st.currentComponent ∧
    (applyApplicationAttr st n sv hv).componentType = st.componentType ∧
    (applyApplicationAttr st n sv hv).inIntentFilter = st.inIntentFilter ∧
    (applyApplicationAttr st n sv hv).currentIntentFilter = st.currentIntentFilter := by
  unfold applyApplicationAttr
  repeat' split
  all_goals simp

/-- The `uses-permission` block either does nothing or appends exactly one
permission whose protection level is derived from its (non-empty) name. -/
theorem applyUsesPermissionAttr_spec (st : ParseState) (n : String) (sv hv : Option String) :
    applyUsesPermissionAttr st n sv hv = st ∨
    ∃ pn, pn ≠ "" ∧ applyUsesPermissionAttr st n sv hv =
      { st with result := { st.result with permissions :=
          st.result.permissions ++ [⟨pn, getPermissionProtectionLevel pn⟩] } } := by
  unfold applyUsesPermissionAttr
  split
  · by_cases h : sv.getD "" ≠ ""
    · right
      refine ⟨sv.getD "", h, ?_⟩
      simp [h]
    · left
      simp [h]
  · left; rfl

theorem applyComponentAttr_result (st : ParseState) (n : String) (sv hv : Option String) :
    (applyComponentAttr st n sv hv).result = st.result ∧
    (applyComponentAttr st n sv hv).currentElement = st.currentElement ∧
    (applyComponentAttr st n sv hv).componentType = st.componentType ∧
    (applyComponentAttr st n sv hv).inIntentFilter = st.inIntentFilter ∧
    (applyComponentAttr st n sv hv).currentIntentFilter = st.currentIntentFilter := by
  unfold applyComponentAttr
  repeat' split
  all_goals simp

theorem applyIntentFilterAttr_result (st : ParseState) (n : String) (sv hv : Option String) :
    (applyIntentFilterAttr st n sv hv).result = st.result ∧
    (applyIntentFilterAttr st n sv hv).currentElement = st.currentElement ∧
    (applyIntentFilterAttr st n sv hv).currentComponent = st.currentComponent ∧
    (applyIntentFilterAttr st n sv hv).componentType = st.componentType ∧
    (applyIntentFilterAttr st n sv hv).inIntentFilter = st.inIntentFilter := by
  unfold applyIntentFilterAttr
  repeat' split
  all_goals simp

/-! ## Invariants carried through the whole pipeline -/

/-- Every component stored in the four output lists has a non-empty
name. -/
def NamesOk (r : ManifestResult) : Prop :=
  (∀ c ∈ r.activities, c.name ≠ "") ∧ (∀ c ∈ r.services, c.name ≠ "") ∧
  (∀ c ∈ r.receivers, c.name ≠ "") ∧ (∀ c ∈ r.providers, c.name ≠ "")

/-- Every stored permission carries the protection level derived from
its name. -/
def PermsOk (r : ManifestResult) : Prop :=
  ∀ p ∈ r.permissions, p.protectionLevel = getPermissionProtectionLevel p.name

def ResultInv (r : ManifestResult) : Prop := NamesOk r ∧ PermsOk r

theorem namesOk_append (l : List Component) (c : Component)
    (hl : ∀ x ∈ l, x.name ≠ "") (hc : c.name ≠ "") :
    ∀ x ∈ l ++ [c], x.name ≠ "" := by
  intro x hx
  rcases List.mem_append.mp hx with h | h
  · exact hl x h
  · rw [List.mem_singleton] at h
    subst h
    exact hc

theorem saveComponent_namesOk (r : ManifestResult) (c : Component)
    (t : Option CompType) (h : NamesOk r) : NamesOk (saveComponent r c t) := by
  obtain ⟨h1, h2, h3, h4⟩ := h
  unfold saveComponent NamesOk
  match t with
  | none => exact ⟨h1, h2, h3, h4⟩
  | some t =>
    by_cases hn : c.name = ""
    · simp only [hn, if_true]
      exact ⟨h1, h2, h3, h4⟩
    · simp only [hn, if_false]
      cases t
      · exact ⟨namesOk_append _ _ h1 hn, h2, h3, h4⟩
      · exact ⟨h1, namesOk_append _ _ h2 hn, h3, h4⟩
      · exact ⟨h1, h2, namesOk_append _ _ h3 hn, h4⟩
      · exact ⟨h1, h2, h3, namesOk_append _ _ h4 hn⟩

theorem saveComponent_permissions (r : ManifestResult) (c : Component)
    (t : Option CompType) : (saveComponent r c t).permissions = r.permissions := by
  unfold saveComponent
  match t with
  | none => rfl
  | some t =>
    by_cases hn : c.name = ""
    · simp [hn]
    · cases t <;> simp [hn]

theorem closeComponent_result (st : ParseState) (d : Nat) :
    (closeComponent st d).result = st.result ∨
    ∃ c, (closeComponent st d).result = saveComponent st.result c st.componentType := by
  unfold closeComponent
  split
  · split
    · right; exact ⟨_, rfl⟩
    · left; rfl
  · left; rfl

theorem closeIntentFilter_result (st : ParseState) (d : Nat) :
    (closeIntentFilter st d).result = st.result := by
  unfold closeIntentFilter
  repeat' split
  all_goals simp

theorem openElement_result (st : ParseState) (e : String) (d : Nat) :
    (openElement st e d).result = st.result := by
  unfold openElement
  repeat' split
  all_goals simp

theorem stepElement_result (st : ParseState) (e : String) (d : Nat) :
    (stepElement st e d).result = st.result ∨
    ∃ c, (stepElement st e d).result = saveComponent st.result c st.componentType := by
  unfold stepElement
  rw [openElement_result, closeIntentFilter_result]
  exact closeComponent_result st d

/-- Transfer `ResultInv` along equal collections. -/
theorem ResultInv.of_frame {r r2 : ManifestResult} (h : ResultInv r)
    (hperm : r2.permissions = r.permissions)
    (ha : r2.activities = r.activities) (hs : r2.services = r.services)
    (hr : r2.receivers = r.receivers) (hp : r2.providers = r.providers) :
    ResultInv r2 := by
  obtain ⟨⟨a1, a2, a3, a4⟩, pm⟩ := h
  refine ⟨⟨?_, ?_, ?_, ?_⟩, ?_⟩ <;> intro x hx
  · exact a1 x (ha ▸ hx)
  · exact a2 x (hs ▸ hx)
  · exact a3 x (hr ▸ hx)
  · exact a4 x (hp ▸ hx)
  · exact pm x (hperm ▸ hx)

theorem applyManifestAttr_resultInv (st : ParseState) (n : String) (sv hv : Option String)
    (h : ResultInv st.result) : ResultInv (applyManifestAttr st n sv hv).result := by
  have f := applyManifestAttr_frame st n sv hv
  exact h.of_frame f.1 f.2.1 f.2.2.1 f.2.2.2.1 f.2.2.2.2.1

theorem applyUsesSdkAttr_resultInv (st : ParseState) (n : String) (sv hv : Option String)
    (h : ResultInv st.result) : ResultInv (applyUsesSdkAttr st n sv hv).result := by
  have f := applyUsesSdkAttr_frame st n sv hv
  exact h.of_frame f.1 f.2.1 f.2.2.1 f.2.2.2.1 f.2.2.2.2.1

theorem applyUsesPermissionAttr_resultInv (st : ParseState) (n : String)
    (sv hv : Option String) (h : ResultInv st.result) :
    ResultInv (applyUsesPermissionAttr st n sv hv).result := by
  rcases applyUsesPermissionAttr_spec st n sv hv with he | ⟨pn, hpn, he⟩
  · rw [he]
    exact h
  · rw [he]
    obtain ⟨hn, hp⟩ := h
    refine ⟨hn, ?_⟩
    intro p hp2
    rcases List.mem_append.mp hp2 with h2 | h2
    · exact hp p h2
    · rw [List.mem_singleton] at h2
      subst h2
      rfl

theorem applyApplicationAttr_resultInv (st : ParseState) (n : String) (sv hv : Option String)
    (h : ResultInv st.result) : ResultInv (applyApplicationAttr st n sv hv).result := by
  have f := applyApplicationAttr_frame st n sv hv
  exact h.of_frame f.1 f.2.1 f.2.2.1 f.2.2.2.1 f.2.2.2.2.1

theorem applyComponentAttr_resultInv (st : ParseState) (n : String) (sv hv : Option String)
    (h : ResultInv st.result) : ResultInv (applyComponentAttr st n sv hv).result := by
  rw [(applyComponentAttr_result st n sv hv).1]
  exact h

theorem applyIntentFilterAttr_resultInv (st : ParseState) (n : String) (sv hv : Option String)
    (h : ResultInv st.result) : ResultInv (applyIntentFilterAttr st n sv hv).result := by
  rw [(applyIntentFilterAttr_result st n sv hv).1]
  exact h

theorem stepAttr_resultInv (st : ParseState) (n : String) (v : AttrVal)
    (h : ResultInv st.result) : ResultInv (stepAttr st n v).result := by
  simp only [stepAttr]
  exact applyIntentFilterAttr_resultInv _ _ _ _
    (applyComponentAttr_resultInv _ _ _ _
      (applyApplicationAttr_resultInv _ _ _ _
        (applyUsesPermissionAttr_resultInv _ _ _ _
          (applyUsesSdkAttr_resultInv _ _ _ _
            (applyManifestAttr_resultInv _ _ _ _ h)))))

theorem stepLine_resultInv (st : ParseState) (line : List Char)
    (h : ResultInv st.result) : ResultInv (stepLine st line).result := by
  unfold stepLine
  split
  · rcases stepElement_result st _ _ with he | ⟨c, he⟩
    · rw [he]; exact h
    · rw [he]
      exact ⟨saveComponent_namesOk _ _ _ h.1, by
        intro p hp
        rw [saveComponent_permissions] at hp
        exact h.2 p hp⟩
  · split
    · exact stepAttr_resultInv st _ _ h
    · exact h

theorem parseLinesFrom_inv (P : ParseState → Prop)
    (hstep : ∀ st l, P st → P (stepLine st l)) :
    ∀ lines st, P st → P (parseLinesFrom st lines) := by
  intro lines
  induction lines with
  | nil => intro st h; exact h
  | cons l ls ih =>
    intro st h
    exact ih _ (hstep _ _ h)

theorem finishParse_resultInv (st : ParseState) (h : ResultInv st.result) :
    ResultInv (finishParse st) := by
  unfold finishParse
  split
  · exact ⟨saveComponent_namesOk _ _ _ h.1, by
      intro p hp
      rw [saveComponent_permissions] at hp
      exact h.2 p hp⟩
  · exact h

/-! ## Characterizations of the BadgingMerger and the export inference -/

/-- The triple block touches only package, versionCode and versionName,
and each of those only when empty. -/
theorem badgeTriple_spec (d : ManifestResult) (bs : List Char) :
    (badgeTriple d bs).minSdk = d.minSdk ∧
    (badgeTriple d bs).targetSdk = d.targetSdk ∧
    (badgeTriple d bs).permissions = d.permissions ∧
    (badgeTriple d bs).activities = d.activities ∧
    (badgeTriple d bs).services = d.services ∧
    (badgeTriple d bs).receivers = d.receivers ∧
    (badgeTriple d bs).providers = d.providers ∧
    (badgeTriple d bs).securityIssues = d.securityIssues ∧
    (badgeTriple d bs).debuggable = d.debuggable ∧
    (badgeTriple d bs).allowBackup = d.allowBackup ∧
    (d.package ≠ "" → (badgeTriple d bs).package = d.package) ∧
    (d.versionCode ≠ "" → (badgeTriple d bs).versionCode = d.versionCode) ∧
    (d.versionName ≠ "" → (badgeTriple d bs).versionName = d.versionName) := by
  unfold badgeTriple
  cases h1 : findPackageTriple bs with
  | none => simp
  | some v =>
    obtain ⟨p, vc, vn⟩ := v
    by_cases hpk : d.package = "" <;>
      by_cases hvc : d.versionCode = "" <;>
      by_cases hvn : d.versionName = "" <;>
      simp [hpk, hvc, hvn]

/-- The minSdk block touches only minSdk, and only when empty. -/
theorem badgeMinSdk_spec (d : ManifestResult) (bs : List Char) :
    (badgeMinSdk d bs).package = d.package ∧
    (badgeMinSdk d bs).versionCode = d.versionCode ∧
    (badgeMinSdk d bs).versionName = d.versionName ∧
    (badgeMinSdk d bs).targetSdk = d.targetSdk ∧
    (badgeMinSdk d bs).permissions = d.permissions ∧
    (badgeMinSdk d bs).activities = d.activities ∧
    (badgeMinSdk d bs).services = d.services ∧
    (badgeMinSdk d bs).receivers = d.receivers ∧
    (badgeMinSdk d bs).providers = d.providers ∧
    (badgeMinSdk d bs).securityIssues = d.securityIssues ∧
    (badgeMinSdk d bs).debuggable = d.debuggable ∧
    (badgeMinSdk d bs).allowBackup = d.allowBackup ∧
    (d.minSdk ≠ "" → (badgeMinSdk d bs).minSdk = d.minSdk) := by
  unfold badgeMinSdk
  cases h1 : findSdkVersion bs with
  | none => simp
  | some v => split_ifs <;> simp_all

/-- The targetSdk block touches only targetSdk, and only when empty. -/
theorem badgeTargetSdk_spec (d : ManifestResult) (bs : List Char) :
    (badgeTargetSdk d bs).package = d.package ∧
    (badgeTargetSdk d bs).versionCode = d.versionCode ∧
    (badgeTargetSdk d bs).versionName = d.versionName ∧
    (badgeTargetSdk d bs).minSdk = d.minSdk ∧
    (badgeTargetSdk d bs).permissions = d.permissions ∧
    (badgeTargetSdk d bs).activities = d.activities ∧
    (badgeTargetSdk d bs).services = d.services ∧
    (badgeTargetSdk d bs).receivers = d.receivers ∧
    (badgeTargetSdk d bs).providers = d.providers ∧
    (badgeTargetSdk d bs).securityIssues = d.securityIssues ∧
    (badgeTargetSdk d bs).debuggable = d.debuggable ∧
    (badgeTargetSdk d bs).allowBackup = d.allowBackup ∧
    (d.targetSdk ≠ "" → (badgeTargetSdk d bs).targetSdk = d.targetSdk) := by
  unfold badgeTargetSdk
  cases h1 : findTargetSdkVersion bs with
  | none => simp
  | some v => split_ifs <;> simp_all

theorem parseBadgingOutput_frame (d : ManifestResult) (b : String) :
    (parseBadgingOutput d b).permissions = d.permissions ∧
    (parseBadgingOutput d b).activities = d.activities ∧
    (parseBadgingOutput d b).services = d.services ∧
    (parseBadgingOutput d b).receivers = d.receivers ∧
    (parseBadgingOutput d b).providers = d.providers ∧
    (parseBadgingOutput d b).securityIssues = d.securityIssues ∧
    (parseBadgingOutput d b).debuggable = d.debuggable ∧
    (parseBadgingOutput d b).allowBackup = d.allowBackup := by
  unfold parseBadgingOutput
  obtain ⟨t1, t2, t3, t4, t5, t6, t7, t8, t9, t10, t11, t12, t13⟩ :=
    badgeTriple_spec d b.toList
  obtain ⟨m1, m2, m3, m4, m5, m6, m7, m8, m9, m10, m11, m12, m13⟩ :=
    badgeMinSdk_spec (badgeTriple d b.toList) b.toList
  obtain ⟨g1, g2, g3, g4, g5, g6, g7, g8, g9, g10, g11, g12, g13⟩ :=
    badgeTargetSdk_spec (badgeMinSdk (badgeTriple d b.toList) b.toList) b.toList
  refine ⟨?_, ?_, ?_, ?_, ?_, ?_, ?_, ?_⟩
  · rw [g5, m5, t3]
  · rw [g6, m6, t4]
  · rw [g7, m7, t5]
  · rw [g8, m8, t6]
  · rw [g9, m9, t7]
  · rw [g10, m10, t8]
  · rw [g11, m11, t9]
  · rw [g12, m12, t10]

theorem parseBadgingOutput_preserves (d : ManifestResult) (b : String) :
    (d.package ≠ "" → (parseBadgingOutput d b).package = d.package) ∧
    (d.versionCode ≠ "" → (parseBadgingOutput d b).versionCode = d.versionCode) ∧
    (d.versionName ≠ "" → (parseBadgingOutput d b).versionName = d.versionName) ∧
    (d.minSdk ≠ "" → (parseBadgingOutput d b).minSdk = d.minSdk) ∧
    (d.targetSdk ≠ "" → (parseBadgingOutput d b).targetSdk = d.targetSdk) := by
  unfold parseBadgingOutput
  obtain ⟨t1, t2, t3, t4, t5, t6, t7, t8, t9, t10, t11, t12, t13⟩ :=
    badgeTriple_spec d b.toList
  obtain ⟨m1, m2, m3, m4, m5, m6, m7, m8, m9, m10, m11, m12, m13⟩ :=
    badgeMinSdk_spec (badgeTriple d b.toList) b.toList
  obtain ⟨g1, g2, g3, g4, g5, g6, g7, g8, g9, g10, g11, g12, g13⟩ :=
    badgeTargetSdk_spec (badgeMinSdk (badgeTriple d b.toList) b.toList) b.toList
  refine ⟨?_, ?_, ?_, ?_, ?_⟩ <;> intro h
  · rw [g1, m1, t11 h]
  · rw [g2, m2, t12 h]
  · rw [g3, m3, t13 h]
  · rw [g4, m13 (by rw [t1]; exact h), t1]
  · rw [g13 (by rw [m4, t2]; exact h), m4, t2]

theorem parseBadgingOutput_nomatch (d : ManifestResult) (b : String)
    (h1 : findPackageTriple b.toList = none) (h2 : findSdkVersion b.toList = none)
    (h3 : findTargetSdkVersion b.toList = none) :
    parseBadgingOutput d b = d := by
  unfold parseBadgingOutput badgeTriple badgeMinSdk badgeTargetSdk
  simp only [h1]
  simp only [h2]
  simp only [h3]

theorem parseBadgingOutput_resultInv (d : ManifestResult) (b : String)
    (h : ResultInv d) : ResultInv (parseBadgingOutput d b) := by
  have f := parseBadgingOutput_frame d b
  exact h.of_frame f.1 f.2.1 f.2.2.1 f.2.2.2.1 f.2.2.2.2.1

theorem mergeIfNonempty_resultInv (d : ManifestResult) (b : String)
    (h : ResultInv d) : ResultInv (mergeIfNonempty d b) := by
  unfold mergeIfNonempty
  split
  · exact parseBadgingOutput_resultInv _ _ h
  · exact h

/-- Normal form of `inferExportedStatus`: everything except activities
and receivers is untouched; each activity / receiver is forced exported
exactly when the parsed target SDK is below 31, it has a filter, and it
was not exported. -/
theorem inferExportedStatus_spec (d : ManifestResult) :
    (inferExportedStatus d).package = d.package ∧
    (inferExportedStatus d).versionCode = d.versionCode ∧
    (inferExportedStatus d).versionName = d.versionName ∧
    (inferExportedStatus d).minSdk = d.minSdk ∧
    (inferExportedStatus d).targetSdk = d.targetSdk ∧
    (inferExportedStatus d).permissions = d.permissions ∧
    (inferExportedStatus d).services = d.services ∧
    (inferExportedStatus d).providers = d.providers ∧
    (inferExportedStatus d).securityIssues = d.securityIssues ∧
    (inferExportedStatus d).debuggable = d.debuggable ∧
    (inferExportedStatus d).allowBackup = d.allowBackup ∧
    (inferExportedStatus d).activities = d.activities.map (fun a =>
      if jsParseIntOr0 d.targetSdk < 31 ∧ (a.intentFilters.getD []).length > 0 ∧
          a.exported = false then { a with exported := true } else a) ∧
    (inferExportedStatus d).receivers = d.receivers.map (fun a =>
      if jsParseIntOr0 d.targetSdk < 31 ∧ (a.intentFilters.getD []).length > 0 ∧
          a.exported = false then { a with exported := true } else a) := by
  simp only [inferExportedStatus]
  by_cases h : jsParseIntOr0 d.targetSdk < 31
  · simp [h, forceExported]
  · simp [h]

theorem namesOk_map_force (l : List Component) (f : Component → Component)
    (hf : ∀ c, (f c).name = c.name) (h : ∀ c ∈ l, c.name ≠ "") :
    ∀ c ∈ l.map f, c.name ≠ "" := by
  intro c hc
  rcases List.mem_map.mp hc with ⟨a, ha, rfl⟩
  rw [hf]
  exact h a ha

theorem inferExportedStatus_resultInv (d : ManifestResult) (h : ResultInv d) :
    ResultInv (inferExportedStatus d) := by
  obtain ⟨⟨a1, a2, a3, a4⟩, pm⟩ := h
  simp only [inferExportedStatus]
  split
  · refine ⟨⟨?_, a2, ?_, a4⟩, pm⟩
    · exact namesOk_map_force _ _ (fun c => by unfold forceExported; split <;> rfl) a1
    · exact namesOk_map_force _ _ (fun c => by unfold forceExported; split <;> rfl) a3
  · exact ⟨⟨a1, a2, a3, a4⟩, pm⟩

/-- The two invariants hold of every parse result. -/
theorem parse_resultInv (x b : String) : ResultInv (parseAaptXmlTree x b) := by
  unfold parseAaptXmlTree
  apply inferExportedStatus_resultInv
  apply mergeIfNonempty_resultInv
  apply finishParse_resultInv
  apply parseLinesFrom_inv (fun st => ResultInv st.result) stepLine_resultInv
  exact ⟨⟨fun c hc => absurd hc (List.not_mem_nil c), fun c hc => absurd hc (List.not_mem_nil c),
    fun c hc => absurd hc (List.not_mem_nil c), fun c hc => absurd hc (List.not_mem_nil c)⟩,
    fun p hp => absurd hp (List.not_mem_nil p)⟩

/-! ## Identity of the attribute blocks on names they do not handle -/

theorem applyManifestAttr_other (st : ParseState) (n : String) (sv hv : Option String)
    (h1 : n ≠ "package") (h2 : n ≠ "versionCode") (h3 : n ≠ "versionName") :
    applyManifestAttr st n sv hv = st := by
  unfold applyManifestAttr
  repeat' split
  all_goals simp_all

theorem applyUsesSdkAttr_other (st : ParseState) (n : String) (sv hv : Option String)
    (h1 : n ≠ "minSdkVersion") (h2 : n ≠ "targetSdkVersion") :
    applyUsesSdkAttr st n sv hv = st := by
  unfold applyUsesSdkAttr
  repeat' split
  all_goals simp_all

theorem applyUsesPermissionAttr_other (st : ParseState) (n : String) (sv hv : Option String)
    (h : n ≠ "name") : applyUsesPermissionAttr st n sv hv = st := by
  unfold applyUsesPermissionAttr
  split
  · simp_all
  · rfl

theorem applyApplicationAttr_other (st : ParseState) (n : String) (sv hv : Option String)
    (h1 : n ≠ "debuggable") (h2 : n ≠ "allowBackup") :
    applyApplicationAttr st n sv hv = st := by
  unfold applyApplicationAttr
  repeat' split
  all_goals simp_all

theorem applyComponentAttr_other (st : ParseState) (n : String) (sv hv : Option String)
    (h1 : n ≠ "name") (h2 : n ≠ "exported") (h3 : n ≠ "permission")
    (h4 : n ≠ "authorities") (h5 : n ≠ "readPermission") (h6 : n ≠ "writePermission") :
    applyComponentAttr st n sv hv = st := by
  unfold applyComponentAttr
  repeat' split
  all_goals simp_all

theorem applyIntentFilterAttr_other (st : ParseState) (n : String) (sv hv : Option String)
    (h1 : n ≠ "name") (h2 : n ≠ "scheme") (h3 : n ≠ "host") (h4 : n ≠ "path") :
    applyIntentFilterAttr st n sv hv = st := by
  unfold applyIntentFilterAttr
  repeat' split
  all_goals simp_all

/-- The `uses-permission` block never changes any state besides the
permissions list. -/
theorem applyUsesPermissionAttr_state (st : ParseState) (n : String) (sv hv : Option String) :
    (applyUsesPermissionAttr st n sv hv).currentElement = st.currentElement ∧
    (applyUsesPermissionAttr st n sv hv).currentComponent = st.currentComponent ∧
    (applyUsesPermissionAttr st n sv hv).componentType = st.componentType ∧
    (applyUsesPermissionAttr st n sv hv).inIntentFilter = st.inIntentFilter ∧
    (applyUsesPermissionAttr st n sv hv).currentIntentFilter = st.currentIntentFilter := by
  rcases applyUsesPermissionAttr_spec st n sv hv with h | ⟨pn, hpn, h⟩ <;> rw [h] <;> simp

/-- The component block on a `name` attribute: the open component's name
is overwritten with the (JS-defaulted) string value, whatever
`currentElement` is. -/
theorem applyComponentAttr_name (st : ParseState) (comp : Component) (sv hv : Option String)
    (hcc : st.currentComponent = some comp) :
    applyComponentAttr st "name" sv hv =
      { st with currentComponent := some { comp with name := sv.getD "" } } := by
  unfold applyComponentAttr
  rw [hcc]
  simp

/-- The intent-filter block on a `name` attribute inside an `action`
element: the filter's action is set to the raw string value. -/
theorem applyIntentFilterAttr_action_name (st : ParseState) (sv hv : Option String)
    (hf : st.inIntentFilter = true) (hce : st.currentElement = some "action") :
    applyIntentFilterAttr st "name" sv hv =
      { st with currentIntentFilter := { st.currentIntentFilter with action := sv } } := by
  unfold applyIntentFilterAttr
  rw [hf, hce]
  simp

/-! ## Claim theorems -/

/-- C6: the derived protection level is a pure function of the permission
name: "dangerous" on the fixed dangerous set, else "signature" on the
fixed signature set or when the name carries the BIND_ marker (the
source's `includes("BIND_")` check), else "normal"; and in every parsed
document the stored level is always this derived value, never a parsed
attribute. -/
theorem c6_protection_level_derived :
    (∀ name : String, getPermissionProtectionLevel name =
      if DANGEROUS_PERMISSIONS.contains name then "dangerous"
      else if SIGNATURE_PERMISSIONS.contains name ∨ hasSub "BIND_".toList name.toList then
        "signature"
      else "normal") ∧
    (∀ x b : String, ∀ p ∈ (parseAaptXmlTree x b).permissions,
      p.protectionLevel = getPermissionProtectionLevel p.name) := by
  constructor
  · intro name
    unfold getPermissionProtectionLevel
    by_cases h2 : name ∈ SIGNATURE_PERMISSIONS <;>
      by_cases h3 : hasSub "BIND_".toList name.toList = true <;>
      simp_all
  · intro x b
    exact (parse_resultInv x b).2

/-- C6 witness: concrete evaluations of the level function, and a parsed
permission carrying the derived level. -/
theorem c6_protection_level_derived_witness :
    getPermissionProtectionLevel "android.permission.CAMERA" = "dangerous" ∧
    getPermissionProtectionLevel "android.permission.BIND_VPN_SERVICE" = "signature" ∧
    getPermissionProtectionLevel "com.example.BIND_CUSTOM" = "signature" ∧
    getPermissionProtectionLevel "android.permission.INTERNET" = "normal" ∧
    (⟨"android.permission.CAMERA", "dangerous"⟩ : PermissionInfo) ∈
      (parseAaptXmlTree "E: uses-permission (line=3)\n  A: android:name(0x01010003)=\"android.permission.CAMERA\" (Raw: \"x\")" "").permissions ∧
    ("dangerous" : String) = getPermissionProtectionLevel "android.permission.CAMERA" := by
  refine ⟨?_, ?_, ?_, ?_, ?_, ?_⟩
  · rw [c6_protection_level_derived.1]; decide
  · rw [c6_protection_level_derived.1]; decide
  · rw [c6_protection_level_derived.1]; decide
  · rw [c6_protection_level_derived.1]; decide
  · decide
  · exact c6_protection_level_derived.2
      "E: uses-permission (line=3)\n  A: android:name(0x01010003)=\"android.permission.CAMERA\" (Raw: \"x\")" ""
      ⟨"android.permission.CAMERA", "dangerous"⟩ (by decide)

/-- C7: the badging merge assigns package, versionCode, versionName,
minSdk and targetSdk only when the field is currently empty, it never
modifies the component lists, permissions, security issues or the two
boolean flags, and an empty or completely unmatched badging text leaves
the document unchanged. -/
theorem c7_badging_merge_frame (d : ManifestResult) (b : String) :
    ((parseBadgingOutput d b).permissions = d.permissions ∧
     (parseBadgingOutput d b).activities = d.activities ∧
     (parseBadgingOutput d b).services = d.services ∧
     (parseBadgingOutput d b).receivers = d.receivers ∧
     (parseBadgingOutput d b).providers = d.providers ∧
     (parseBadgingOutput d b).securityIssues = d.securityIssues ∧
     (parseBadgingOutput d b).debuggable = d.debuggable ∧
     (parseBadgingOutput d b).allowBackup = d.allowBackup) ∧
    ((d.package ≠ "" → (parseBadgingOutput d b).package = d.package) ∧
     (d.versionCode ≠ "" → (parseBadgingOutput d b).versionCode = d.versionCode) ∧
     (d.versionName ≠ "" → (parseBadgingOutput d b).versionName = d.versionName) ∧
     (d.minSdk ≠ "" → (parseBadgingOutput d b).minSdk = d.minSdk) ∧
     (d.targetSdk ≠ "" → (parseBadgingOutput d b).targetSdk = d.targetSdk)) ∧
    (findPackageTriple b.toList = none → findSdkVersion b.toList = none →
      findTargetSdkVersion b.toList = none → parseBadgingOutput d b = d) ∧
    (b = "" → parseBadgingOutput d b = d) := by
  refine ⟨parseBadgingOutput_frame d b, parseBadgingOutput_preserves d b,
    parseBadgingOutput_nomatch d b, ?_⟩
  intro hb
  subst hb
  exact parseBadgingOutput_nomatch d "" rfl rfl rfl

/-- C8: in every parse result, every component in the four output lists
has a non-empty name (an unnamed component scope is never appended); the
parse itself is a total function. -/
theorem c8_nonempty_names (x b : String) :
    (∀ c ∈ (parseAaptXmlTree x b).activities, c.name ≠ "") ∧
    (∀ c ∈ (parseAaptXmlTree x b).services, c.name ≠ "") ∧
    (∀ c ∈ (parseAaptXmlTree x b).receivers, c.name ≠ "") ∧
    (∀ c ∈ (parseAaptXmlTree x b).providers, c.name ≠ "") := by
  obtain ⟨⟨h1, h2, h3, h4⟩, _⟩ := parse_resultInv x b
  exact ⟨h1, h2, h3, h4⟩

/-- C9: a line matching neither the element nor the attribute pattern
leaves the state unchanged; the empty input and any input all of whose
lines are unmatched yield the all-default document (parsing is a total
function, so no exception is ever thrown). -/
theorem c9_garbage_tolerant :
    (∀ (st : ParseState) (line : List Char),
      elementMatch line = none → attrMatch line = none → stepLine st line = st) ∧
    parseAaptXmlTree "" "" = ({} : ManifestResult) ∧
    (∀ x : String,
      (∀ line ∈ splitOnNl x.toList, elementMatch line = none ∧ attrMatch line = none) →
      parseAaptXmlTree x "" = ({} : ManifestResult)) := by
  have hstep : ∀ (st : ParseState) (line : List Char),
      elementMatch line = none → attrMatch line = none → stepLine st line = st := by
    intro st line h1 h2
    simp [stepLine, h1, h2]
  refine ⟨hstep, rfl, ?_⟩
  intro x h
  have gen : ∀ (ls : List (List Char)) (st : ParseState),
      (∀ l ∈ ls, elementMatch l = none ∧ attrMatch l = none) →
      parseLinesFrom st ls = st := by
    intro ls
    induction ls with
    | nil => intro st _; rfl
    | cons l ls ih =>
      intro st hall
      have h0 := hall l (List.mem_cons_self l ls)
      show parseLinesFrom (stepLine st l) ls = st
      rw [hstep st l h0.1 h0.2]
      exact ih st (fun l2 hl2 => hall l2 (List.mem_cons_of_mem _ hl2))
  unfold parseAaptXmlTree
  rw [gen _ _ h]
  rfl

/-- C10: an empty or unparseable targetSdk is coerced to 0 by export
inference, so the inference still forces exported on filtered activities
and receivers, while the analyzer's SDK rules (guarded by a strict
positivity check) never fire on such values. -/
theorem c10_unparseable_targetsdk :
    (∀ s : String, jsParseInt s = none → jsParseIntOr0 s = 0) ∧
    jsParseInt "" = none ∧
    (∀ d : ManifestResult, jsParseInt d.targetSdk = none →
      (inferExportedStatus d).activities = d.activities.map (fun a =>
        if (a.intentFilters.getD []).length > 0 ∧ a.exported = false then
          { a with exported := true } else a) ∧
      (inferExportedStatus d).receivers = d.receivers.map (fun a =>
        if (a.intentFilters.getD []).length > 0 ∧ a.exported = false then
          { a with exported := true } else a)) ∧
    (∀ m : ManifestResult, jsParseInt m.targetSdk = none → targetSdkIssues m = []) ∧
    (∀ m : ManifestResult, jsParseInt m.minSdk = none → minSdkIssues m = []) := by
  refine ⟨?_, rfl, ?_, ?_, ?_⟩
  · intro s h
    unfold jsParseIntOr0
    rw [h]
    rfl
  · intro d h
    have h0 : jsParseIntOr0 d.targetSdk = 0 := by unfold jsParseIntOr0; rw [h]; rfl
    obtain ⟨-, -, -, -, -, -, -, -, -, -, -, hact, hrecv⟩ := inferExportedStatus_spec d
    constructor
    · rw [hact]
      simp [h0]
    · rw [hrecv]
      simp [h0]
  · intro m h
    have h0 : jsParseIntOr0 m.targetSdk = 0 := by unfold jsParseIntOr0; rw [h]; rfl
    simp [targetSdkIssues, h0]
  · intro m h
    have h0 : jsParseIntOr0 m.minSdk = 0 := by unfold jsParseIntOr0; rw [h]; rfl
    simp [minSdkIssues, h0]

/-- C10 witness document: one filtered, unexported activity and an empty
targetSdk. -/
def actWithFilter : Component :=
  { name := "A", exported := false, intentFilters := some [{}] }

def c10Doc : ManifestResult := { targetSdk := "", activities := [actWithFilter] }

/-- C10 witness: with empty targetSdk the inference still forces the
activity exported while the analyzer's target-SDK rule stays silent. -/
theorem c10_unparseable_targetsdk_witness :
    jsParseIntOr0 "" = 0 ∧
    (inferExportedStatus c10Doc).activities = [{ actWithFilter with exported := true }] ∧
    targetSdkIssues c10Doc = [] := by
  refine ⟨c10_unparseable_targetsdk.1 "" rfl, ?_,
    c10_unparseable_targetsdk.2.2.2.1 c10Doc rfl⟩
  have h := (c10_unparseable_targetsdk.2.2.1 c10Doc rfl).1
  rw [h]
  decide

/-- C1 concrete input: activity, intent-filter one level deeper, two
attribute lines, then a second activity at the first activity's depth. -/
def c1Input : String :=
  "E: activity (line=8)\n  E: intent-filter (line=9)\n    A: android:name(0x01010003)=\"com.X\" (Raw: \"com.X\")\n    A: android:priority(0x0101001c)=(type 0x10)0x1\nE: activity (line=12)\n  A: android:name(0x01010003)=\"com.Y\" (Raw: \"com.Y\")"

/-- C1 counterexample: on the claim's input shape the first component is
emitted with ZERO intent-filters, not exactly one — the filter-count list
is [0, 0], refuting the claimed [1, 0]. (The attribute line inside the
intent-filter scope is what gives the first component its name, see C4.) -/
theorem c1_scope_closure_counterexample :
    (parseAaptXmlTree c1Input "").activities.map (fun a => (a.name, a.intentFilters)) =
      [("com.X", some []), ("com.Y", some [])] ∧
    ¬ (parseAaptXmlTree c1Input "").activities.map
        (fun a => (a.intentFilters.getD []).length) = [1, 0] := by
  constructor
  · decide
  · decide

/-- C1 (amended): a new component element line whose depth closes both the
open component and the open intent-filter does close both scopes and
starts a fresh second component scope, but the closed intent-filter is
DISCARDED rather than appended: the component closure runs first and
clears the owner, so the filter closure finds no open component. The
first component therefore appears in the output with zero intent-filters. -/
theorem c1_scope_closure_amended :
    (∀ (st : ParseState) (comp : Component) (d : Nat),
      st.currentComponent = some comp → st.componentDepth ≥ d →
      st.inIntentFilter = true → st.intentFilterDepth ≥ d →
      stepElement st "activity" d =
        { st with
          result := saveComponent st.result comp st.componentType,
          currentElement := some "activity",
          currentComponent := some { name := "", exported := false, intentFilters := some [] },
          componentType := some .activity,
          componentDepth := d,
          inIntentFilter := false,
          currentIntentFilter := {} }) ∧
    (parseAaptXmlTree c1Input "").activities.map (fun a => (a.name, a.intentFilters)) =
      [("com.X", some []), ("com.Y", some [])] := by
  constructor
  · intro st comp d hc hcd hf hfd
    unfold stepElement closeComponent closeIntentFilter openElement
    rw [hc]
    simp [hcd, hf, hfd]
  · decide

def c1State : ParseState :=
  { currentComponent := some { name := "N", exported := false, intentFilters := some [] },
    componentType := some .activity, componentDepth := 1,
    inIntentFilter := true, intentFilterDepth := 2 }

/-- C1 witness: the amended closure behaviour at a concrete state. -/
theorem c1_scope_closure_witness :
    stepElement c1State "activity" 1 =
      { c1State with
        result := saveComponent c1State.result
          { name := "N", exported := false, intentFilters := some [] } (some .activity),
        currentElement := some "activity",
        currentComponent := some { name := "", exported := false, intentFilters := some [] },
        componentType := some .activity,
        componentDepth := 1,
        inIntentFilter := false,
        currentIntentFilter := {} } :=
  c1_scope_closure_amended.1 c1State
    { name := "N", exported := false, intentFilters := some [] } 1 rfl (by decide) rfl (by decide)

/-- C2 concrete input: application element with allowBackup value 0x1. -/
def c2Input : String :=
  "E: manifest (line=2)\n  E: application (line=5)\n    A: android:allowBackup(0x01010280)=(type 0x12)0x1"

/-- C2 counterexample: the present value 0x1 is neither 0xffffffff nor -1,
yet the parsed allowBackup is true — refuting the claimed convention for
allowBackup. -/
theorem c2_boolean_convention_counterexample :
    (parseAaptXmlTree c2Input "").allowBackup = true ∧
    ¬ (("0x1" : String) = "0xffffffff" ∨ ("0x1" : String) = "-1") := by
  constructor
  · decide
  · decide

/-- C2 (amended): debuggable and exported follow the claimed convention —
true iff the present value is 0xffffffff or -1, with defaults false — but
allowBackup does not: it is set to false iff the present value is 0x0 or
0, and to true for ANY other present value (such as 0x1); when absent it
keeps its default true. -/
theorem c2_boolean_convention_amended :
    (∀ (st : ParseState) (r : String), st.currentElement = some "application" →
      (stepAttr st "allowBackup" (.num r)).result.allowBackup =
        !(r == "0x0" || r == "0")) ∧
    (∀ (st : ParseState) (r : String), st.currentElement = some "application" →
      (stepAttr st "debuggable" (.num r)).result.debuggable =
        (r == "0xffffffff" || r == "-1")) ∧
    (∀ (st : ParseState) (comp : Component) (r : String), st.currentComponent = some comp →
      (stepAttr st "exported" (.num r)).currentComponent =
        some { comp with exported := (r == "0xffffffff" || r == "-1") }) ∧
    (∀ (st : ParseState) (d : Nat), (openElement st "activity" d).currentComponent =
      some { name := "", exported := false, intentFilters := some [] }) ∧
    (parseAaptXmlTree "" "").allowBackup = true ∧
    (parseAaptXmlTree "" "").debuggable = false := by
  refine ⟨?_, ?_, ?_, ?_, rfl, rfl⟩
  · intro st r hce
    simp only [stepAttr]
    rw [applyManifestAttr_other _ _ _ _ (by decide) (by decide) (by decide),
        applyUsesSdkAttr_other _ _ _ _ (by decide) (by decide),
        applyUsesPermissionAttr_other _ _ _ _ (by decide),
        (applyIntentFilterAttr_result _ _ _ _).1,
        (applyComponentAttr_result _ _ _ _).1]
    simp [applyApplicationAttr, hce]
  · intro st r hce
    simp only [stepAttr]
    rw [applyManifestAttr_other _ _ _ _ (by decide) (by decide) (by decide),
        applyUsesSdkAttr_other _ _ _ _ (by decide) (by decide),
        applyUsesPermissionAttr_other _ _ _ _ (by decide),
        (applyIntentFilterAttr_result _ _ _ _).1,
        (applyComponentAttr_result _ _ _ _).1]
    simp [applyApplicationAttr, hce]
  · intro st comp r hcc
    simp only [stepAttr]
    rw [applyManifestAttr_other _ _ _ _ (by decide) (by decide) (by decide),
        applyUsesSdkAttr_other _ _ _ _ (by decide) (by decide),
        applyUsesPermissionAttr_other _ _ _ _ (by decide),
        applyApplicationAttr_other _ _ _ _ (by decide) (by decide),
        (applyIntentFilterAttr_result _ _ _ _).2.2.1]
    unfold applyComponentAttr
    rw [hcc]
    simp
  · intro st d
    simp [openElement]

def c2State : ParseState := { currentElement := some "application" }

def c2CompState : ParseState := { currentComponent := some {} }

/-- C2 witness: the amended convention evaluated at the counterexample
value 0x1 and at 0xffffffff. -/
theorem c2_boolean_convention_witness :
    (stepAttr c2State "allowBackup" (.num "0x1")).result.allowBackup =
      !(("0x1" : String) == "0x0" || ("0x1" : String) == "0") ∧
    (stepAttr c2State "debuggable" (.num "0x1")).result.debuggable =
      (("0x1" : String) == "0xffffffff" || ("0x1" : String) == "-1") ∧
    (stepAttr c2CompState "exported" (.num "0xffffffff")).currentComponent =
      some { ({} : Component) with
        exported := (("0xffffffff" : String) == "0xffffffff" || ("0xffffffff" : String) == "-1") } :=
  ⟨c2_boolean_convention_amended.1 c2State "0x1" rfl,
   c2_boolean_convention_amended.2.1 c2State "0x1" rfl,
   c2_boolean_convention_amended.2.2.1 c2CompState {} "0xffffffff" rfl⟩

/-- C3: the activity rule of the analyzer emits nothing for an exported,
permission-less activity carrying a MAIN/LAUNCHER intent-filter, and
exactly one high finding naming the activity otherwise; the analyzer's
output is exactly the concatenation of the rule outputs, containing each
activity's finding via `filterMap activityIssue`. -/
theorem c3_launcher_exemption :
    (∀ a : Component, a.exported = true → jsTruthyStr a.permission = false →
      (((∃ f ∈ a.intentFilters.getD [], f.action = some "android.intent.action.MAIN" ∧
          f.category = some "android.intent.category.LAUNCHER")) →
        activityIssue a = none) ∧
      ((¬ ∃ f ∈ a.intentFilters.getD [], f.action = some "android.intent.action.MAIN" ∧
          f.category = some "android.intent.category.LAUNCHER") →
        activityIssue a = some ⟨"high", activityIssueMsg, some a.name⟩)) ∧
    (∀ m : ManifestResult, analyzeSecurityIssues m =
      manifestWideIssues m ++ m.activities.filterMap activityIssue ++
      m.services.filterMap serviceIssue ++ m.receivers.filterMap receiverIssue ++
      m.providers.filterMap providerIssue ++ dangerousCountIssues m ++
      targetSdkIssues m ++ minSdkIssues m) := by
  constructor
  · intro a hx hp
    have hcond : (a.exported && !jsTruthyStr a.permission) = true := by
      rw [hx, hp]
      rfl
    have hiff : isLauncherActivity a = true ↔
        ∃ f ∈ a.intentFilters.getD [], f.action = some "android.intent.action.MAIN" ∧
          f.category = some "android.intent.category.LAUNCHER" := by
      unfold isLauncherActivity
      simp [List.any_eq_true]
    constructor
    · intro hex
      simp [activityIssue, hcond, hiff.mpr hex]
    · intro hnex
      have hl : isLauncherActivity a = false := by
        cases hb : isLauncherActivity a
        · rfl
        · exact absurd (hiff.mp hb) hnex
      simp [activityIssue, hcond, hl]
  · intro m
    rfl

def launcherActivity : Component :=
  { name := "L", exported := true,
    intentFilters := some [{ action := some "android.intent.action.MAIN",
                             category := some "android.intent.category.LAUNCHER" }] }

def plainActivity : Component := { name := "P", exported := true, intentFilters := some [] }

/-- C3 witness: the exemption and the finding at two concrete
activities. -/
theorem c3_launcher_exemption_witness :
    activityIssue launcherActivity = none ∧
    activityIssue plainActivity = some ⟨"high", activityIssueMsg, some "P"⟩ :=
  ⟨(c3_launcher_exemption.1 launcherActivity (by decide) (by decide)).1 (by decide),
   (c3_launcher_exemption.1 plainActivity (by decide) (by decide)).2 (by decide)⟩

/-- C4 concrete input: an activity named ".Main" whose intent-filter
action line later overwrites the component name. -/
def c4Input : String :=
  "E: activity (line=1)\n  A: android:name(0x01010003)=\".Main\" (Raw: \".Main\")\n  E: intent-filter (line=2)\n    E: action (line=3)\n      A: android:name(0x01010003)=\"android.intent.action.MAIN\" (Raw: \"y\")"

/-- C4: while a component scope is open, any string-valued `name`
attribute line overwrites the component's name — including the `name`
attribute of an `action` element inside an open intent-filter, which
simultaneously sets the filter's action; the component's reported name is
the last `name` attribute seen in its scope, as the concrete run shows
(".Main" is replaced by the action string). -/
theorem c4_component_name_overwrite :
    (∀ (st : ParseState) (comp : Component) (s : String),
      st.currentComponent = some comp →
      ((stepAttr st "name" (.str s)).currentComponent = some { comp with name := s } ∧
       (st.inIntentFilter = true → st.currentElement = some "action" →
         (stepAttr st "name" (.str s)).currentIntentFilter =
           { st.currentIntentFilter with action := some s }))) ∧
    (parseAaptXmlTree c4Input "").activities.map (fun a => (a.name, a.intentFilters)) =
      [("android.intent.action.MAIN",
        some [{ action := some "android.intent.action.MAIN", category := none, data := none }])] := by
  constructor
  · intro st comp s hcc
    simp only [stepAttr]
    rw [applyManifestAttr_other _ _ _ _ (by decide) (by decide) (by decide),
        applyUsesSdkAttr_other _ _ _ _ (by decide) (by decide)]
    obtain ⟨hce3, hcc3, hct3, hif3, hcif3⟩ :=
      applyUsesPermissionAttr_state st "name" (some s) none
    rw [applyApplicationAttr_other _ _ _ _ (by decide) (by decide)]
    rw [applyComponentAttr_name _ comp _ _ (by rw [hcc3, hcc])]
    constructor
    · rw [(applyIntentFilterAttr_result _ _ _ _).2.2.1]
      simp
    · intro hf hce
      rw [applyIntentFilterAttr_action_name _ _ _ (by simpa [hif3] using hf)
        (by simpa [hce3] using hce)]
      simp [hcif3]
  · decide

def c4State : ParseState :=
  { currentElement := some "action",
    currentComponent := some { name := "old", exported := false, intentFilters := some [] },
    inIntentFilter := true }

/-- C4 witness: one name line both renames the component and sets the
filter action. -/
theorem c4_component_name_overwrite_witness :
    (stepAttr c4State "name" (.str "android.intent.action.MAIN")).currentComponent =
      some { name := "android.intent.action.MAIN", exported := false,
             intentFilters := some [] } ∧
    (stepAttr c4State "name" (.str "android.intent.action.MAIN")).currentIntentFilter =
      { action := some "android.intent.action.MAIN" } := by
  have h := c4_component_name_overwrite.1 c4State
    { name := "old", exported := false, intentFilters := some [] }
    "android.intent.action.MAIN" rfl
  exact ⟨h.1, h.2 rfl rfl⟩

def c5DocSdk30 : ManifestResult := { targetSdk := "30", activities := [actWithFilter] }

def c5DocSdk31 : ManifestResult := { targetSdk := "31", activities := [actWithFilter] }

/-- C5: export inference forces exported on a filtered, not-yet-exported
activity or receiver exactly when `parseInt(targetSdk) || 0 < 31`; it
never touches services or providers; it runs exactly once in the
pipeline, after the line pass, flush and badging merge and before the
analyzer is applied; and at the boundary targetSdk "30" forces the
activity while "31" leaves it unexported. -/
theorem c5_export_inference_boundary :
    (∀ d : ManifestResult,
      (inferExportedStatus d).services = d.services ∧
      (inferExportedStatus d).providers = d.providers ∧
      (inferExportedStatus d).activities = d.activities.map (fun a =>
        if jsParseIntOr0 d.targetSdk < 31 ∧ (a.intentFilters.getD []).length > 0 ∧
            a.exported = false then { a with exported := true } else a) ∧
      (inferExportedStatus d).receivers = d.receivers.map (fun a =>
        if jsParseIntOr0 d.targetSdk < 31 ∧ (a.intentFilters.getD []).length > 0 ∧
            a.exported = false then { a with exported := true } else a)) ∧
    (∀ x b : String, parseAaptXmlTree x b =
      inferExportedStatus
        (mergeIfNonempty (finishParse (parseLinesFrom {} (splitOnNl x.toList))) b)) ∧
    (∀ x b : String, parseManifestResult x b =
      { parseAaptXmlTree x b with
        securityIssues := analyzeSecurityIssues (parseAaptXmlTree x b) }) ∧
    (inferExportedStatus c5DocSdk30).activities = [{ actWithFilter with exported := true }] ∧
    (inferExportedStatus c5DocSdk31).activities = [actWithFilter] := by
  refine ⟨?_, fun x b => rfl, fun x b => rfl, by decide, by decide⟩
  intro d
  obtain ⟨-, -, -, -, -, -, hs, hp, -, -, -, hact, hrecv⟩ := inferExportedStatus_spec d
  exact ⟨hs, hp, hact, hrecv⟩

/-- C5 witness: the frame part of the inference at a concrete document. -/
theorem c5_export_inference_boundary_witness :
    (inferExportedStatus c5DocSdk30).services = c5DocSdk30.services ∧
    (inferExportedStatus c5DocSdk30).providers = c5DocSdk30.providers :=
  ⟨(c5_export_inference_boundary.1 c5DocSdk30).1,
   (c5_export_inference_boundary.1 c5DocSdk30).2.1⟩

def c7Doc : ManifestResult := { package := "keep.me", activities := [{ name := "A" }] }

/-- C7 witness: a badging text that matches the package pattern does not
overwrite a non-empty package and touches no list; an empty badging text
is a no-op. -/
theorem c7_badging_merge_frame_witness :
    (parseBadgingOutput c7Doc
      "package: name=\x27com.other\x27 versionCode=\x277\x27 versionName=\x272.0\x27").package =
      "keep.me" ∧
    (parseBadgingOutput c7Doc
      "package: name=\x27com.other\x27 versionCode=\x277\x27 versionName=\x272.0\x27").activities =
      c7Doc.activities ∧
    parseBadgingOutput c7Doc "" = c7Doc := by
  have h := c7_badging_merge_frame c7Doc
    "package: name=\x27com.other\x27 versionCode=\x277\x27 versionName=\x272.0\x27"
  have h2 := c7_badging_merge_frame c7Doc ""
  refine ⟨?_, h.1.2.1, h2.2.2.2 rfl⟩
  rw [h.2.1.1 (by decide)]
  rfl

/-- C8 witness input: a named service (kept) and an unnamed provider
(dropped). -/
def c8Input : String :=
  "E: service (line=4)\n  A: android:name(0x01010003)=\"com.svc.S\" (Raw: \"z\")\nE: provider (line=9)"

/-- C8 witness: the stored service's name is non-empty by the invariant,
and the unnamed provider was dropped. -/
theorem c8_nonempty_names_witness :
    (({ name := "com.svc.S", exported := false } : Component) ∈
      (parseAaptXmlTree c8Input "").services) ∧
    ({ name := "com.svc.S", exported := false } : Component).name ≠ "" ∧
    (parseAaptXmlTree c8Input "").providers = [] :=
  ⟨by decide, (c8_nonempty_names c8Input "").2.1 _ (by decide), by decide⟩

/-- C9 witness: a garbage line is a state no-op and a garbage input
yields the default document. -/
theorem c9_garbage_tolerant_witness :
    stepLine {} ("random garbage".toList) = ({} : ParseState) ∧
    parseAaptXmlTree "random garbage\nmore junk" "" = ({} : ManifestResult) := by
  constructor
  · exact c9_garbage_tolerant.1 {} _ (by decide) (by decide)
  · exact c9_garbage_tolerant.2.2 "random garbage\nmore junk" (by decide)

end AaptManifest
